import Mathlib

/-! Verification development for the signal-generation pipeline of the
ai-trading-agent repository.

The definitions below are a shallow embedding of
`src/analysis/signal_generator.py` (the `SignalType` enum, the
`SignalThresholds` dataclass and the `SignalGenerator` methods) and of the
aggregation/orchestration slice of
`src/data_acquisition/parse_twitter_trends.py` (`TwitterTrendParser.process_tweets`
from the "Aggregate results" step onward).

Modelling conventions:
- Python floats are modelled by real numbers (`ℝ`); `np.log1p x` is
  `Real.log (1 + x)`.
- A Python dict of sentiment scores is modelled by `SentimentDict`, whose
  fields are `Option ℝ` because `dict.get(key, 0)` falls back to `0` when a
  key is missing.  A `sentiment_data` argument that is not a dict at all (so
  that attribute access `.get` raises) is modelled by `none` at type
  `Option SentimentDict`.
- Python exceptions are modelled with `Except String`: the body of a
  `try:` block is a separate `...Exc` definition returning `Except`, and the
  enclosing function applies the `except:` policy of the source (return `0.0`,
  return `None`, or re-raise).
- `ZeroDivisionError` raised by `a / n` on integer `n = 0` is modelled by
  `pyDivByNat`.
- A batch item (an element of the `coin_data` list) whose subscript accesses
  `data['coin']`, ... raise `KeyError` is modelled by `none` at type
  `Option CoinData`.
- The `timestamp` fields of the source (wall-clock reads) are omitted; no
  claim refers to them.
- Python's `sorted` is a stable sort; for the total preorder used by
  `generate_signals_batch` any stable sort computes the same list, so it is
  modelled by `List.insertionSort`, which is stable.
-/

namespace AITrading

/-- The five discrete signal types (`SignalType` enum in the source). -/
inductive SignalType where
  | STRONG_BUY
  | BUY
  | NEUTRAL
  | SELL
  | STRONG_SELL
deriving DecidableEq, Inhabited

/-- The `SignalThresholds` dataclass; the field defaults are the dataclass
defaults of the source. -/
structure SignalThresholds where
  STRONG_BUY : ℝ := 0.8
  BUY : ℝ := 0.5
  NEUTRAL : ℝ := 0.0
  SELL : ℝ := -0.5
  STRONG_SELL : ℝ := -0.8
  MIN_MENTIONS : ℕ := 5
  MIN_ENGAGEMENT : ℝ := 100.0

/-- `SignalThresholds()` with all defaults, as used by `SignalGenerator()` in
`TwitterTrendParser.__init__`. -/
def defaultThresholds : SignalThresholds := {}

/-- A sentiment-score dict (the shape produced by VADER's `polarity_scores`).
Each field is `none` when the key is missing, in which case
`sentiment_data.get(key, 0)` returns `0`. -/
structure SentimentDict where
  compound : Option ℝ := none
  pos : Option ℝ := none
  neg : Option ℝ := none
  neu : Option ℝ := none

/-- `np.log1p` on reals. -/
noncomputable def log1p (x : ℝ) : ℝ := Real.log (1 + x)

/-- Body of the `try:` block of `SignalGenerator._calculate_sentiment_score`.
A non-dict `sentiment_data` (modelled by `none`) raises on `.get`. -/
noncomputable def calcSentimentScoreExc (sentiment_data : Option SentimentDict) :
    Except String ℝ :=
  match sentiment_data with
  | none => Except.error "AttributeError"
  | some d =>
      let compound_score := d.compound.getD 0
      let pos_score := d.pos.getD 0
      let neg_score := d.neg.getD 0
      let weighted_score :=
        compound_score * 0.5 + (pos_score - neg_score) * 0.3 +
          (if compound_score > 0 then 1 else -1) * 0.2
      Except.ok (max (-1) (min 1 weighted_score))

/-- `SignalGenerator._calculate_sentiment_score`: the `except` clause returns
`0.0`. -/
noncomputable def calculate_sentiment_score (sentiment_data : Option SentimentDict) : ℝ :=
  match calcSentimentScoreExc sentiment_data with
  | Except.ok v => v
  | Except.error _ => 0

/-- `SignalGenerator._calculate_engagement_impact`:
`min(1.0, log1p(max(0, engagement_score)) / log1p(MIN_ENGAGEMENT))`. -/
noncomputable def calculate_engagement_impact (th : SignalThresholds)
    (engagement_score : ℝ) : ℝ :=
  min 1 (log1p (max 0 engagement_score) / log1p th.MIN_ENGAGEMENT)

/-- `SignalGenerator._calculate_mention_confidence`:
`min(1.0, max(0.0, log1p(mention_count) / log1p(MIN_MENTIONS)))`. -/
noncomputable def calculate_mention_confidence (th : SignalThresholds)
    (mention_count : ℕ) : ℝ :=
  min 1 (max 0 (log1p mention_count / log1p th.MIN_MENTIONS))

/-- The output record of `SignalGenerator.generate_signal` (the `metrics`
sub-dict is flattened into the fields `sentiment_score`, `engagement_impact`,
`mention_count`, `raw_sentiment`; the `timestamp` field is omitted). -/
structure TradingSignal where
  coin : String
  signal_type : SignalType
  signal_strength : ℝ
  confidence : ℝ
  sentiment_score : ℝ
  engagement_impact : ℝ
  mention_count : ℕ
  raw_sentiment : Option SentimentDict
deriving Inhabited

/-- The threshold classification of `generate_signal`: `signal_type` starts as
`NEUTRAL` and the `if/elif` chain reassigns it on the first matching
comparison. -/
noncomputable def classifySignal (th : SignalThresholds) (signal_strength : ℝ) :
    SignalType :=
  if signal_strength ≥ th.STRONG_BUY then SignalType.STRONG_BUY
  else if signal_strength ≥ th.BUY then SignalType.BUY
  else if signal_strength ≤ th.STRONG_SELL then SignalType.STRONG_SELL
  else if signal_strength ≤ th.SELL then SignalType.SELL
  else SignalType.NEUTRAL

/-- Body of the `try:` block of `SignalGenerator.generate_signal`. -/
noncomputable def generateSignalExc (th : SignalThresholds) (coin : String)
    (sentiment_data : Option SentimentDict) (mention_count : ℕ)
    (engagement_score : ℝ) : Except String TradingSignal :=
  let sentiment_score := calculate_sentiment_score sentiment_data
  let engagement_impact := calculate_engagement_impact th engagement_score
  let confidence := calculate_mention_confidence th mention_count
  let signal_strength :=
    sentiment_score * 0.5 + engagement_impact * 0.3 + confidence * 0.2
  let signal_type := classifySignal th signal_strength
  Except.ok
    { coin := coin
      signal_type := signal_type
      signal_strength := signal_strength
      confidence := confidence
      sentiment_score := sentiment_score
      engagement_impact := engagement_impact
      mention_count := mention_count
      raw_sentiment := sentiment_data }

/-- `SignalGenerator.generate_signal`: the `except` clause returns `None`. -/
noncomputable def generate_signal (th : SignalThresholds) (coin : String)
    (sentiment_data : Option SentimentDict) (mention_count : ℕ)
    (engagement_score : ℝ) : Option TradingSignal :=
  match generateSignalExc th coin sentiment_data mention_count engagement_score with
  | Except.ok sig => some sig
  | Except.error _ => none

/-- One element of the `coin_data` list consumed by `generate_signals_batch`. -/
structure CoinData where
  coin : String
  sentiment : Option SentimentDict
  mentions : ℕ
  engagement : ℝ

/-- The sort key relation of `generate_signals_batch`:
`sorted(signals, key=lambda x: abs(x['signal_strength']), reverse=True)`,
i.e. descending absolute signal strength. -/
def strengthGE (a b : TradingSignal) : Prop :=
  |b.signal_strength| ≤ |a.signal_strength|

noncomputable instance : DecidableRel strengthGE :=
  fun a b => Real.decidableLE |b.signal_strength| |a.signal_strength|

instance : IsTotal TradingSignal strengthGE :=
  ⟨fun a b => le_total |b.signal_strength| |a.signal_strength|⟩

instance : IsTrans TradingSignal strengthGE :=
  ⟨fun _ _ _ h1 h2 => le_trans h2 h1⟩

/-- `SignalGenerator.generate_signals_batch`: items whose field extraction
raises `KeyError` (`none` items) hit the `except ... continue` path, items for
which `generate_signal` returns `None` fail the `if signal:` test; surviving
signals are sorted by `|signal_strength|` descending. -/
noncomputable def generate_signals_batch (th : SignalThresholds)
    (coin_data : List (Option CoinData)) : List TradingSignal :=
  let signals := coin_data.filterMap (fun item =>
    item.bind (fun d => generate_signal th d.coin d.sentiment d.mentions d.engagement))
  List.insertionSort strengthGE signals

/-! Slice of `TwitterTrendParser.process_tweets` from the "Aggregate results"
step onward.  One element of the `results` list carries the fields the
aggregation reads: `result['sentiment']['compound']`,
`result['crypto_mentions']`, `result['engagement_score']`. -/

/-- A processed tweet record as read by the aggregation loop. -/
structure ProcessedResult where
  sentiment_compound : ℝ
  crypto_mentions : List String
  engagement_score : ℝ

/-- Per-coin rollup entry of the `aggregated_data['crypto_mentions']` dict.
During aggregation `avg_sentiment` holds the running sum of compound scores;
`finalizeAverages` divides it by the mention count. -/
structure CoinAgg where
  coin : String
  mentions : ℕ
  avg_sentiment : ℝ
  total_engagement : ℝ

/-- One inner-loop step of the aggregation: if `coin` is absent a zero entry is
created first, then `mentions += 1`, `avg_sentiment += compound`,
`total_engagement += engagement`.  Insertion order of the Python dict is
modelled by an association list. -/
noncomputable def addMention (acc : List CoinAgg) (coin : String)
    (compound engagement : ℝ) : List CoinAgg :=
  match acc with
  | [] =>
      [{ coin := coin
         mentions := 0 + 1
         avg_sentiment := 0 + compound
         total_engagement := 0 + engagement }]
  | e :: rest =>
      if e.coin = coin then
        { e with
          mentions := e.mentions + 1
          avg_sentiment := e.avg_sentiment + compound
          total_engagement := e.total_engagement + engagement } :: rest
      else
        e :: addMention rest coin compound engagement

/-- Inner loop `for coin in result['crypto_mentions']`. -/
noncomputable def addResult (acc : List CoinAgg) (r : ProcessedResult) : List CoinAgg :=
  r.crypto_mentions.foldl
    (fun a coin => addMention a coin r.sentiment_compound r.engagement_score) acc

/-- Outer loop `for result in results` building
`aggregated_data['crypto_mentions']`. -/
noncomputable def aggregateMentions (results : List ProcessedResult) : List CoinAgg :=
  results.foldl addResult []

/-- The "Calculate averages" loop: `avg_sentiment /= mentions` for every entry
with `mentions > 0`. -/
noncomputable def finalizeAverages (l : List CoinAgg) : List CoinAgg :=
  l.map (fun e =>
    if 0 < e.mentions then { e with avg_sentiment := e.avg_sentiment / e.mentions }
    else e)

/-- The finalized per-asset mapping of a batch run. -/
noncomputable def aggregatedAssets (results : List ProcessedResult) : List CoinAgg :=
  finalizeAverages (aggregateMentions results)

/-- The "Generate trading signals" loop: keep entries with `mentions >= 5`
(the hard-coded minimum mention threshold) and rebuild a sentiment dict from
the averaged compound score. -/
noncomputable def buildCoinData (agg : List CoinAgg) : List CoinData :=
  (agg.filter (fun e => e.mentions ≥ 5)).map (fun e =>
    { coin := e.coin
      sentiment := some
        { compound := some e.avg_sentiment
          pos := some (max 0 e.avg_sentiment)
          neg := some (max 0 (-e.avg_sentiment))
          neu := some (1 - |e.avg_sentiment|) }
      mentions := e.mentions
      engagement := e.total_engagement })

/-- The `trading_signals` list produced for a batch of processed results; the
parser uses `SignalGenerator()` with default thresholds. -/
noncomputable def tradingSignals (results : List ProcessedResult) : List TradingSignal :=
  generate_signals_batch defaultThresholds ((buildCoinData (aggregatedAssets results)).map some)

/-- Python division `a / n` for an integer denominator: raises
`ZeroDivisionError` when `n = 0`. -/
noncomputable def pyDivByNat (a : ℝ) (n : ℕ) : Except String ℝ :=
  if n = 0 then Except.error "ZeroDivisionError" else Except.ok (a / n)

/-- The output document of `process_tweets` (the `timestamp` field is
omitted). -/
structure AggregatedData where
  total_tweets : ℕ
  average_sentiment : ℝ
  crypto_mentions : List CoinAgg
  trading_signals : List TradingSignal

/-- `TwitterTrendParser.process_tweets` from the "Aggregate results" step on:
`average_sentiment` is `sum(compound) / len(results)` with no guard on the
length, so an empty `results` list raises `ZeroDivisionError`, which the
enclosing `except` clause logs and re-raises. -/
noncomputable def process_tweets (results : List ProcessedResult) :
    Except String AggregatedData :=
  match pyDivByNat ((results.map (·.sentiment_compound)).sum) results.length with
  | Except.error msg => Except.error msg
  | Except.ok avg =>
      Except.ok
        { total_tweets := results.length
          average_sentiment := avg
          crypto_mentions := aggregatedAssets results
          trading_signals := tradingSignals results }

/-! Concrete inputs used by the witness theorems. -/

/-- The BTC sample sentiment dict from `main()` of `signal_generator.py`. -/
def sampleSentiment : SentimentDict :=
  { compound := some 0.8, pos := some 0.6, neg := some 0.1, neu := some 0.3 }

/-- The BTC sample batch item from `main()` of `signal_generator.py`. -/
def sampleCoinData : CoinData :=
  { coin := "BTC", sentiment := some sampleSentiment, mentions := 10, engagement := 500 }

/-- A one-item batch built from the sample item. -/
def sampleItems : List (Option CoinData) := [some sampleCoinData]

/-- The signal generated for the sample item. -/
noncomputable def sampleSignal : TradingSignal :=
  (generate_signal defaultThresholds "BTC" (some sampleSentiment) 10 500).getD default

/-- The first (and only) signal of the sample one-item batch. -/
noncomputable def sampleBatchSignal : TradingSignal :=
  (generate_signals_batch defaultThresholds sampleItems).head
    (by
      intro hnil
      have hlen : (generate_signals_batch defaultThresholds sampleItems).length = 1 := rfl
      rw [hnil] at hlen
      exact absurd hlen (by decide))

/-- A processed tweet mentioning only "btc", with neutral sentiment and zero
engagement. -/
def wres : ProcessedResult :=
  { sentiment_compound := 0, crypto_mentions := ["btc"], engagement_score := 0 }

/-- A processed tweet mentioning only "eth". -/
def weth : ProcessedResult :=
  { sentiment_compound := 0, crypto_mentions := ["eth"], engagement_score := 0 }

/-- A corpus of five "btc" tweets: "btc" reaches the mention threshold. -/
def wResults : List ProcessedResult := [wres, wres, wres, wres, wres]

/-- Five "btc" tweets plus three "eth" tweets: "eth" stays below the mention
threshold. -/
def wResults2 : List ProcessedResult := wResults ++ [weth, weth, weth]

/-- The single trading signal of the `wResults` run. -/
noncomputable def wSig5 : TradingSignal :=
  (tradingSignals wResults).head
    (by
      intro hnil
      have hlen : (tradingSignals wResults).length = 1 := rfl
      rw [hnil] at hlen
      exact absurd hlen (by decide))

/-- The single trading signal of the `wResults2` run. -/
noncomputable def wSig5b : TradingSignal :=
  (tradingSignals wResults2).head
    (by
      intro hnil
      have hlen : (tradingSignals wResults2).length = 1 := rfl
      rw [hnil] at hlen
      exact absurd hlen (by decide))

/-- The "eth" rollup entry of the `wResults2` run (3 mentions). -/
noncomputable def wEth : CoinAgg :=
  (aggregatedAssets wResults2).get ⟨1, by decide⟩

/-! Helper lemmas shared by the claim theorems. -/

/-- Unfolding of `generate_signal`: the body of its `try:` block never raises
over the modelled input space, so the function always returns the record
computed from its component scores. -/
theorem generate_signal_eq (th : SignalThresholds) (coin : String)
    (sd : Option SentimentDict) (m : ℕ) (e : ℝ) :
    generate_signal th coin sd m e =
      some
        { coin := coin
          signal_type := classifySignal th
            (calculate_sentiment_score sd * 0.5 +
              calculate_engagement_impact th e * 0.3 +
              calculate_mention_confidence th m * 0.2)
          signal_strength :=
            calculate_sentiment_score sd * 0.5 +
              calculate_engagement_impact th e * 0.3 +
              calculate_mention_confidence th m * 0.2
          confidence := calculate_mention_confidence th m
          sentiment_score := calculate_sentiment_score sd
          engagement_impact := calculate_engagement_impact th e
          mention_count := m
          raw_sentiment := sd } := rfl

/-- The sentiment score is clamped to `[-1, 1]` (and the exception path
returns `0`, which also lies in the interval). -/
theorem sentiment_score_mem (sd : Option SentimentDict) :
    -1 ≤ calculate_sentiment_score sd ∧ calculate_sentiment_score sd ≤ 1 := by
  rcases sd with _ | d
  · constructor <;> norm_num [calculate_sentiment_score, calcSentimentScoreExc]
  · refine ⟨le_max_left _ _, max_le (by norm_num) (min_le_left _ _)⟩

/-- The mention confidence lies in `[0, 1]` for every threshold
configuration. -/
theorem mention_confidence_mem (th : SignalThresholds) (m : ℕ) :
    0 ≤ calculate_mention_confidence th m ∧ calculate_mention_confidence th m ≤ 1 :=
  ⟨le_min zero_le_one (le_max_left _ _), min_le_left _ _⟩

/-- With the default `MIN_ENGAGEMENT = 100.0`, the engagement impact lies in
`[0, 1]`. -/
theorem engagement_impact_mem (e : ℝ) :
    0 ≤ calculate_engagement_impact defaultThresholds e ∧
      calculate_engagement_impact defaultThresholds e ≤ 1 := by
  refine ⟨le_min zero_le_one ?_, min_le_left _ _⟩
  have hnum : 0 ≤ log1p (max 0 e) :=
    Real.log_nonneg (by have := le_max_left (0 : ℝ) e; linarith)
  have hden : 0 ≤ log1p defaultThresholds.MIN_ENGAGEMENT :=
    Real.log_nonneg (by norm_num [defaultThresholds, log1p])
  exact div_nonneg hnum hden

/-- With default thresholds, the combined signal strength lies in
`[-0.5, 1]`. -/
theorem strength_mem (sd : Option SentimentDict) (m : ℕ) (e : ℝ) :
    -(0.5) ≤ calculate_sentiment_score sd * 0.5 +
        calculate_engagement_impact defaultThresholds e * 0.3 +
        calculate_mention_confidence defaultThresholds m * 0.2 ∧
      calculate_sentiment_score sd * 0.5 +
        calculate_engagement_impact defaultThresholds e * 0.3 +
        calculate_mention_confidence defaultThresholds m * 0.2 ≤ 1 := by
  obtain ⟨hs1, hs2⟩ := sentiment_score_mem sd
  obtain ⟨he1, he2⟩ := engagement_impact_mem e
  obtain ⟨hm1, hm2⟩ := mention_confidence_mem defaultThresholds m
  constructor <;> nlinarith

/-- Dropping a batch item that produces no signal (extraction `KeyError` or an
absent classifier result) leaves the batch output unchanged. -/
theorem batch_skips_none (th : SignalThresholds) (item : Option CoinData)
    (rest : List (Option CoinData))
    (h : (item.bind fun d =>
        generate_signal th d.coin d.sentiment d.mentions d.engagement) = none) :
    generate_signals_batch th (item :: rest) = generate_signals_batch th rest := by
  simp only [generate_signals_batch, List.filterMap_cons, h]

/-- With default thresholds, any strength of at least `-0.5` never classifies
as STRONG_SELL, and classifies as SELL exactly when it equals `-0.5`. -/
theorem classify_default_of_half (s : ℝ) (hs : -(0.5) ≤ s) :
    classifySignal defaultThresholds s ≠ SignalType.STRONG_SELL ∧
      (classifySignal defaultThresholds s = SignalType.SELL ↔ s = -(0.5)) := by
  have hSB : defaultThresholds.STRONG_BUY = 0.8 := rfl
  have hB : defaultThresholds.BUY = 0.5 := rfl
  have hSS : defaultThresholds.STRONG_SELL = -0.8 := rfl
  have hS : defaultThresholds.SELL = -0.5 := rfl
  unfold classifySignal
  rw [hSB, hB, hSS, hS]
  split_ifs with h1 h2 h3 h4
  · exact ⟨by decide, fun hc => absurd hc (by decide),
      fun hv => by subst hv; norm_num at h1⟩
  · exact ⟨by decide, fun hc => absurd hc (by decide),
      fun hv => by subst hv; norm_num at h2⟩
  · exact absurd (hs.trans h3) (by norm_num)
  · exact ⟨by decide, fun _ => le_antisymm h4 hs, fun _ => rfl⟩
  · exact ⟨by decide, fun hc => absurd hc (by decide),
      fun hv => absurd (le_of_eq hv) h4⟩

/-! Claim theorems. -/

/-- C4: the claim states that on an empty post corpus the output reports
`total_tweets = 0` and the average-sentiment computation is explicitly guarded
against division by zero.  The code has no such guard:
`sum(r['sentiment']['compound'] for r in results) / len(results)` divides by
`len(results) = 0`, raising `ZeroDivisionError`, which the enclosing `except`
clause logs and re-raises, so no output document is produced at all. -/
theorem claim_C4_empty_corpus_divzero :
    process_tweets [] = Except.error "ZeroDivisionError" := rfl

/-- C9: any exception inside `generate_signal` is caught and turned into an
absent result (`generate_signal` is the `Except`-to-`Option` collapse of its
`try:` body); the batch caller skips an asset whose item produces no signal;
and an exception during sentiment-score extraction is caught locally with the
component returning `0.0` (witnessed by the malformed, non-dict input
`none`). -/
theorem claim_C9_exceptions_caught :
    (∀ sd : Option SentimentDict,
        (∃ msg, calcSentimentScoreExc sd = Except.error msg) →
        calculate_sentiment_score sd = 0) ∧
    calcSentimentScoreExc none = Except.error "AttributeError" ∧
    (∀ (th : SignalThresholds) (coin : String) (sd : Option SentimentDict)
        (m : ℕ) (e : ℝ),
        generate_signal th coin sd m e = (generateSignalExc th coin sd m e).toOption) ∧
    (∀ (th : SignalThresholds) (item : Option CoinData)
        (rest : List (Option CoinData)),
        (item.bind fun d =>
            generate_signal th d.coin d.sentiment d.mentions d.engagement) = none →
        generate_signals_batch th (item :: rest) = generate_signals_batch th rest) := by
  refine ⟨?_, rfl, fun th coin sd m e => rfl, batch_skips_none⟩
  rintro sd ⟨msg, hmsg⟩
  simp [calculate_sentiment_score, hmsg]

/-- Witness for C9 at the malformed sentiment input `none` and a batch whose
first item fails extraction. -/
theorem claim_C9_witness :
    calculate_sentiment_score none = 0 ∧
    generate_signals_batch defaultThresholds [none] =
      generate_signals_batch defaultThresholds [] :=
  ⟨claim_C9_exceptions_caught.1 none ⟨"AttributeError", rfl⟩,
   claim_C9_exceptions_caught.2.2.2 defaultThresholds none [] rfl⟩

/-- C1: the sentiment score is
`compound*0.5 + (pos - neg)*0.3 + (1 if compound > 0 else -1)*0.2` clamped to
`[-1, 1]`; missing fields default to `0`; the third term is `-0.2` when
`compound = 0`; the result lies in `[-1, 1]` on the claimed input ranges; and
the two boundary inputs clamp to exactly `1` and `-1`. -/
theorem claim_C1_sentiment_score :
    (∀ c p n : ℝ,
        calculate_sentiment_score
            (some { compound := some c, pos := some p, neg := some n }) =
          max (-1) (min 1
            (c * 0.5 + (p - n) * 0.3 + (if c > 0 then 1 else -1) * 0.2))) ∧
    (∀ c : ℝ,
        calculate_sentiment_score (some { compound := some c }) =
          calculate_sentiment_score
            (some { compound := some c, pos := some 0, neg := some 0 })) ∧
    (∀ p n : ℝ,
        calculate_sentiment_score
            (some { compound := some 0, pos := some p, neg := some n }) =
          max (-1) (min 1 ((p - n) * 0.3 - 0.2))) ∧
    (∀ c p n : ℝ, -1 ≤ c → c ≤ 1 → 0 ≤ p → p ≤ 1 → 0 ≤ n → n ≤ 1 →
        -1 ≤ calculate_sentiment_score
            (some { compound := some c, pos := some p, neg := some n }) ∧
          calculate_sentiment_score
            (some { compound := some c, pos := some p, neg := some n }) ≤ 1) ∧
    calculate_sentiment_score
        (some { compound := some 1, pos := some 1, neg := some 0 }) = 1 ∧
    calculate_sentiment_score
        (some { compound := some (-1), pos := some 0, neg := some 1 }) = -1 := by
  have hform : ∀ c p n : ℝ,
      calculate_sentiment_score
          (some { compound := some c, pos := some p, neg := some n }) =
        max (-1) (min 1
          (c * 0.5 + (p - n) * 0.3 + (if c > 0 then 1 else -1) * 0.2)) :=
    fun c p n => rfl
  refine ⟨hform, fun c => rfl, ?_, ?_, ?_, ?_⟩
  · intro p n
    have harith : (0 : ℝ) * 0.5 + (p - n) * 0.3 + (-1) * 0.2 = (p - n) * 0.3 - 0.2 := by
      ring
    rw [hform, if_neg (lt_irrefl (0 : ℝ)), harith]
  · intro c p n _ _ _ _ _ _
    rw [hform]
    exact ⟨le_max_left _ _, max_le (by norm_num) (min_le_left _ _)⟩
  · rw [hform, if_pos (by norm_num : (1 : ℝ) > 0)]
    norm_num
  · rw [hform, if_neg (by norm_num : ¬((-1 : ℝ) > 0))]
    norm_num

/-- Witness for C1 at `compound = 1/2`, `pos = 1`, `neg = 0`. -/
theorem claim_C1_witness :
    -1 ≤ calculate_sentiment_score
        (some { compound := some (1 / 2), pos := some 1, neg := some 0 }) ∧
      calculate_sentiment_score
        (some { compound := some (1 / 2), pos := some 1, neg := some 0 }) ≤ 1 :=
  claim_C1_sentiment_score.2.2.2.1 (1 / 2) 1 0 (by norm_num) (by norm_num)
    (by norm_num) (by norm_num) (by norm_num) (by norm_num)

/-- C2: the signal type is chosen by first match in the order STRONG_BUY, BUY,
STRONG_SELL, SELL, NEUTRAL with inclusive comparisons (a strength exactly equal
to a threshold falls into that branch, e.g. `0.8` classifies as STRONG_BUY with
default thresholds), and `generate_signal` assigns exactly this classification
of its signal strength. -/
theorem claim_C2_classification_first_match :
    (∀ (th : SignalThresholds) (s : ℝ),
        (th.STRONG_BUY ≤ s → classifySignal th s = SignalType.STRONG_BUY) ∧
        (s < th.STRONG_BUY → th.BUY ≤ s → classifySignal th s = SignalType.BUY) ∧
        (s < th.STRONG_BUY → s < th.BUY → s ≤ th.STRONG_SELL →
          classifySignal th s = SignalType.STRONG_SELL) ∧
        (s < th.STRONG_BUY → s < th.BUY → th.STRONG_SELL < s → s ≤ th.SELL →
          classifySignal th s = SignalType.SELL) ∧
        (s < th.STRONG_BUY → s < th.BUY → th.STRONG_SELL < s → th.SELL < s →
          classifySignal th s = SignalType.NEUTRAL)) ∧
    classifySignal defaultThresholds 0.8 = SignalType.STRONG_BUY ∧
    (∀ (th : SignalThresholds) (coin : String) (sd : Option SentimentDict)
        (m : ℕ) (e : ℝ) (sig : TradingSignal),
        generate_signal th coin sd m e = some sig →
        sig.signal_type = classifySignal th sig.signal_strength) := by
  refine ⟨?_, ?_, ?_⟩
  · intro th s
    refine ⟨?_, ?_, ?_, ?_, ?_⟩
    · intro h1
      unfold classifySignal
      rw [if_pos h1]
    · intro h1 h2
      unfold classifySignal
      rw [if_neg (not_le.mpr h1), if_pos h2]
    · intro h1 h2 h3
      unfold classifySignal
      rw [if_neg (not_le.mpr h1), if_neg (not_le.mpr h2), if_pos h3]
    · intro h1 h2 h3 h4
      unfold classifySignal
      rw [if_neg (not_le.mpr h1), if_neg (not_le.mpr h2),
        if_neg (not_le.mpr h3), if_pos h4]
    · intro h1 h2 h3 h4
      unfold classifySignal
      rw [if_neg (not_le.mpr h1), if_neg (not_le.mpr h2),
        if_neg (not_le.mpr h3), if_neg (not_le.mpr h4)]
  · unfold classifySignal
    rw [if_pos (by norm_num [defaultThresholds] : (0.8 : ℝ) ≥ defaultThresholds.STRONG_BUY)]
  · intro th coin sd m e sig h
    rw [generate_signal_eq] at h
    have hsig := Option.some.inj h
    subst hsig
    rfl

/-- Witness for C2: a strength strictly above the STRONG_BUY threshold, a
strength in the SELL band, and the sample signal of `generate_signal`. -/
theorem claim_C2_witness :
    classifySignal defaultThresholds 0.9 = SignalType.STRONG_BUY ∧
    classifySignal defaultThresholds (-0.6) = SignalType.SELL ∧
    sampleSignal.signal_type = classifySignal defaultThresholds sampleSignal.signal_strength := by
  refine ⟨(claim_C2_classification_first_match.1 defaultThresholds 0.9).1
      (by norm_num [defaultThresholds]), ?_,
    claim_C2_classification_first_match.2.2 defaultThresholds "BTC"
      (some sampleSentiment) 10 500 sampleSignal rfl⟩
  exact (claim_C2_classification_first_match.1 defaultThresholds (-0.6)).2.2.2.1
    (by norm_num [defaultThresholds]) (by norm_num [defaultThresholds])
    (by norm_num [defaultThresholds]) (by norm_num [defaultThresholds])

/-- C3: the signal strength is exactly
`sentimentScore*0.5 + engagementImpact*0.3 + confidence*0.2` with no further
clamping, and with default thresholds it always lies in `[-0.5, 1]`. -/
theorem claim_C3_strength_formula_range :
    ∀ (coin : String) (sd : Option SentimentDict) (m : ℕ) (e : ℝ)
      (sig : TradingSignal),
      generate_signal defaultThresholds coin sd m e = some sig →
      sig.signal_strength =
          calculate_sentiment_score sd * 0.5 +
            calculate_engagement_impact defaultThresholds e * 0.3 +
            calculate_mention_confidence defaultThresholds m * 0.2 ∧
        -(0.5) ≤ sig.signal_strength ∧ sig.signal_strength ≤ 1 := by
  intro coin sd m e sig h
  rw [generate_signal_eq] at h
  have hsig := Option.some.inj h
  subst hsig
  exact ⟨rfl, (strength_mem sd m e).1, (strength_mem sd m e).2⟩

/-- Witness for C3 at the BTC sample input of the source's `main()`. -/
theorem claim_C3_witness :
    sampleSignal.signal_strength =
        calculate_sentiment_score (some sampleSentiment) * 0.5 +
          calculate_engagement_impact defaultThresholds 500 * 0.3 +
          calculate_mention_confidence defaultThresholds 10 * 0.2 ∧
      -(0.5) ≤ sampleSignal.signal_strength ∧ sampleSignal.signal_strength ≤ 1 :=
  claim_C3_strength_formula_range "BTC" (some sampleSentiment) 10 500 sampleSignal rfl

/-- C10: with default thresholds the strength is always at least `-0.5`, so
the `strength <= STRONG_SELL = -0.8` branch is unreachable and a SELL signal
occurs exactly when the strength equals `-0.5`. -/
theorem claim_C10_strong_sell_unreachable :
    ∀ (coin : String) (sd : Option SentimentDict) (m : ℕ) (e : ℝ)
      (sig : TradingSignal),
      generate_signal defaultThresholds coin sd m e = some sig →
      -(0.5) ≤ sig.signal_strength ∧
        sig.signal_type ≠ SignalType.STRONG_SELL ∧
        (sig.signal_type = SignalType.SELL ↔ sig.signal_strength = -(0.5)) := by
  intro coin sd m e sig h
  rw [generate_signal_eq] at h
  have hsig := Option.some.inj h
  subst hsig
  have hb := (strength_mem sd m e).1
  exact ⟨hb, (classify_default_of_half _ hb).1, (classify_default_of_half _ hb).2⟩

/-- Witness for C10 at the BTC sample input of the source's `main()`. -/
theorem claim_C10_witness :
    -(0.5) ≤ sampleSignal.signal_strength ∧
      sampleSignal.signal_type ≠ SignalType.STRONG_SELL ∧
      (sampleSignal.signal_type = SignalType.SELL ↔
        sampleSignal.signal_strength = -(0.5)) :=
  claim_C10_strong_sell_unreachable "BTC" (some sampleSentiment) 10 500 sampleSignal rfl

/-- C6: the mention confidence is `ln(1 + mentionCount) / ln(1 + 5)` clamped
to `[0, 1]`; it is `0` at `0`, exactly `1` at `MIN_MENTIONS = 5`, monotone
non-decreasing, and never exceeds `1`. -/
theorem claim_C6_mention_confidence :
    (∀ m : ℕ,
        calculate_mention_confidence defaultThresholds m =
          min 1 (max 0 (Real.log (1 + (m : ℝ)) / Real.log 6))) ∧
    calculate_mention_confidence defaultThresholds 0 = 0 ∧
    calculate_mention_confidence defaultThresholds 5 = 1 ∧
    (∀ a b : ℕ, a ≤ b →
        calculate_mention_confidence defaultThresholds a ≤
          calculate_mention_confidence defaultThresholds b) ∧
    (∀ m : ℕ, calculate_mention_confidence defaultThresholds m ≤ 1) := by
  have hform : ∀ m : ℕ,
      calculate_mention_confidence defaultThresholds m =
        min 1 (max 0 (Real.log (1 + (m : ℝ)) / Real.log 6)) := by
    intro m
    norm_num [calculate_mention_confidence, log1p, defaultThresholds]
  have hlog6 : (0 : ℝ) < Real.log 6 := Real.log_pos (by norm_num)
  refine ⟨hform, ?_, ?_, ?_, fun m => (hform m) ▸ min_le_left _ _⟩
  · rw [hform]
    norm_num [Real.log_one]
  · rw [hform]
    have h6 : Real.log (6 : ℝ) ≠ 0 := ne_of_gt hlog6
    norm_num [div_self h6]
  · intro a b hab
    rw [hform, hform]
    have hc : (a : ℝ) ≤ b := Nat.cast_le.mpr hab
    have hl : Real.log (1 + (a : ℝ)) ≤ Real.log (1 + (b : ℝ)) :=
      Real.log_le_log (by positivity) (by linarith)
    exact min_le_min le_rfl (max_le_max le_rfl ((div_le_div_iff_of_pos_right hlog6).mpr hl))

/-- Witness for C6 at the mention counts `2 ≤ 7`. -/
theorem claim_C6_witness :
    calculate_mention_confidence defaultThresholds 2 ≤
      calculate_mention_confidence defaultThresholds 7 :=
  claim_C6_mention_confidence.2.2.2.1 2 7 (by norm_num)

/-- C7: the engagement impact is `ln(1 + max(0, engagementScore)) / ln(1 + 100)`
clamped to at most `1` with no lower clamp; it is `0` at `0`, exactly `1` at
`MIN_ENGAGEMENT = 100.0`, monotone non-decreasing, and never exceeds `1`. -/
theorem claim_C7_engagement_impact :
    (∀ e : ℝ,
        calculate_engagement_impact defaultThresholds e =
          min 1 (Real.log (1 + max 0 e) / Real.log 101)) ∧
    calculate_engagement_impact defaultThresholds 0 = 0 ∧
    calculate_engagement_impact defaultThresholds 100 = 1 ∧
    (∀ a b : ℝ, a ≤ b →
        calculate_engagement_impact defaultThresholds a ≤
          calculate_engagement_impact defaultThresholds b) ∧
    (∀ e : ℝ, calculate_engagement_impact defaultThresholds e ≤ 1) := by
  have hform : ∀ e : ℝ,
      calculate_engagement_impact defaultThresholds e =
        min 1 (Real.log (1 + max 0 e) / Real.log 101) := by
    intro e
    norm_num [calculate_engagement_impact, log1p, defaultThresholds]
  have hlog101 : (0 : ℝ) < Real.log 101 := Real.log_pos (by norm_num)
  refine ⟨hform, ?_, ?_, ?_, fun e => (hform e) ▸ min_le_left _ _⟩
  · rw [hform]
    norm_num [Real.log_one]
  · rw [hform]
    have h101 : Real.log (101 : ℝ) ≠ 0 := ne_of_gt hlog101
    norm_num [div_self h101]
  · intro a b hab
    rw [hform, hform]
    have hmax : max 0 a ≤ max 0 b := max_le_max le_rfl hab
    have h0a : (0 : ℝ) ≤ max 0 a := le_max_left _ _
    have hl : Real.log (1 + max 0 a) ≤ Real.log (1 + max 0 b) :=
      Real.log_le_log (by linarith) (by linarith)
    exact min_le_min le_rfl ((div_le_div_iff_of_pos_right hlog101).mpr hl)

/-- Witness for C7 at the engagement scores `3 ≤ 7`. -/
theorem claim_C7_witness :
    calculate_engagement_impact defaultThresholds 3 ≤
      calculate_engagement_impact defaultThresholds 7 :=
  claim_C7_engagement_impact.2.2.2.1 3 7 (by norm_num)

/-! Aggregation lemmas: the per-asset mapping keeps one entry per coin. -/

/-- Coins present after one `addMention` step. -/
theorem addMention_coin_mem (acc : List CoinAgg) (c : String) (s g : ℝ) (x : String) :
    x ∈ (addMention acc c s g).map (·.coin) ↔ x ∈ acc.map (·.coin) ∨ x = c := by
  induction acc with
  | nil => simp [addMention]
  | cons e rest ih =>
      have hstep : addMention (e :: rest) c s g =
          if e.coin = c then
            { e with
              mentions := e.mentions + 1
              avg_sentiment := e.avg_sentiment + s
              total_engagement := e.total_engagement + g } :: rest
          else e :: addMention rest c s g := rfl
      rw [hstep]
      split_ifs with h
      · subst h
        simp only [List.map_cons, List.mem_cons]
        tauto
      · simp only [List.map_cons, List.mem_cons, ih]
        tauto

/-- One `addMention` step preserves distinctness of the coins (the Python dict
has one entry per key). -/
theorem addMention_nodup (acc : List CoinAgg) (c : String) (s g : ℝ)
    (h : (acc.map (·.coin)).Nodup) :
    ((addMention acc c s g).map (·.coin)).Nodup := by
  induction acc with
  | nil => simp [addMention]
  | cons e rest ih =>
      rw [List.map_cons, List.nodup_cons] at h
      have hstep : addMention (e :: rest) c s g =
          if e.coin = c then
            { e with
              mentions := e.mentions + 1
              avg_sentiment := e.avg_sentiment + s
              total_engagement := e.total_engagement + g } :: rest
          else e :: addMention rest c s g := rfl
      rw [hstep]
      split_ifs with hc
      · simp only [List.map_cons, List.nodup_cons]
        exact ⟨h.1, h.2⟩
      · simp only [List.map_cons, List.nodup_cons]
        refine ⟨?_, ih h.2⟩
        rw [addMention_coin_mem]
        rintro (hmem | hmem)
        · exact h.1 hmem
        · exact hc hmem

/-- The inner mention loop preserves distinctness of the coins. -/
theorem addResult_nodup (acc : List CoinAgg) (r : ProcessedResult)
    (h : (acc.map (·.coin)).Nodup) :
    ((addResult acc r).map (·.coin)).Nodup := by
  unfold addResult
  generalize r.crypto_mentions = cs
  induction cs generalizing acc with
  | nil => simpa using h
  | cons c cs ih => exact ih _ (addMention_nodup _ _ _ _ h)

/-- The aggregated per-asset mapping has one entry per coin. -/
theorem aggregateMentions_nodup (results : List ProcessedResult) :
    ((aggregateMentions results).map (·.coin)).Nodup := by
  suffices hgen : ∀ acc : List CoinAgg, (acc.map (·.coin)).Nodup →
      ((results.foldl addResult acc).map (·.coin)).Nodup from
    hgen [] (by simp)
  induction results with
  | nil => intro acc h; simpa using h
  | cons r rs ih => intro acc h; exact ih _ (addResult_nodup acc r h)

/-- Finalizing the averages changes no coin key. -/
theorem finalizeAverages_map_coin (l : List CoinAgg) :
    (finalizeAverages l).map (·.coin) = l.map (·.coin) := by
  induction l with
  | nil => rfl
  | cons e rest ih =>
      simp only [finalizeAverages, List.map_cons] at ih ⊢
      rw [ih]
      congr 1
      split <;> rfl

/-- The finalized per-asset mapping has one entry per coin. -/
theorem aggregatedAssets_coin_nodup (results : List ProcessedResult) :
    ((aggregatedAssets results).map (·.coin)).Nodup := by
  unfold aggregatedAssets
  rw [finalizeAverages_map_coin]
  exact aggregateMentions_nodup results

/-- Two finalized entries with the same coin are the same entry. -/
theorem aggregated_coin_inj (results : List ProcessedResult) {e1 e2 : CoinAgg}
    (h1 : e1 ∈ aggregatedAssets results) (h2 : e2 ∈ aggregatedAssets results)
    (hc : e1.coin = e2.coin) : e1 = e2 :=
  List.inj_on_of_nodup_map (aggregatedAssets_coin_nodup results) h1 h2 hc

/-- Every signal of a batch run comes from a finalized entry with the same
coin and at least 5 mentions. -/
theorem mem_tradingSignals (results : List ProcessedResult) (sig : TradingSignal)
    (h : sig ∈ tradingSignals results) :
    ∃ e : CoinAgg, e ∈ aggregatedAssets results ∧ e.coin = sig.coin ∧ 5 ≤ e.mentions := by
  simp only [tradingSignals, generate_signals_batch] at h
  rw [List.mem_insertionSort, List.mem_filterMap] at h
  obtain ⟨item, hitem, hbind⟩ := h
  rw [List.mem_map] at hitem
  obtain ⟨d, hd, rfl⟩ := hitem
  have hb2 : generate_signal defaultThresholds d.coin d.sentiment d.mentions
      d.engagement = some sig := hbind
  simp only [buildCoinData] at hd
  rw [List.mem_map] at hd
  obtain ⟨e, he, rfl⟩ := hd
  rw [List.mem_filter] at he
  obtain ⟨hemem, hge⟩ := he
  refine ⟨e, hemem, ?_, by simpa using hge⟩
  rw [generate_signal_eq] at hb2
  have hs := Option.some.inj hb2
  subst hs
  rfl

/-- The one-item sample batch is nonempty. -/
theorem sample_batch_ne_nil :
    generate_signals_batch defaultThresholds sampleItems ≠ [] := by
  intro hnil
  have hlen : (generate_signals_batch defaultThresholds sampleItems).length = 1 := rfl
  rw [hnil] at hlen
  exact absurd hlen (by decide)

/-- The `wResults` run yields a (single) signal. -/
theorem wResults_signals_ne_nil : tradingSignals wResults ≠ [] := by
  intro hnil
  have hlen : (tradingSignals wResults).length = 1 := rfl
  rw [hnil] at hlen
  exact absurd hlen (by decide)

/-- The `wResults2` run yields a (single) signal. -/
theorem wResults2_signals_ne_nil : tradingSignals wResults2 ≠ [] := by
  intro hnil
  have hlen : (tradingSignals wResults2).length = 1 := rfl
  rw [hnil] at hlen
  exact absurd hlen (by decide)

/-- C5: every trading signal of a batch run corresponds to exactly one entry
of the aggregated per-asset mapping, and that entry has at least
`MIN_MENTIONS = 5` mentions; an aggregated asset with fewer than 5 mentions is
excluded from the output entirely. -/
theorem claim_C5_min_mentions_invariant :
    (∀ (results : List ProcessedResult) (sig : TradingSignal),
        sig ∈ tradingSignals results →
        ∃! e : CoinAgg,
          e ∈ aggregatedAssets results ∧ e.coin = sig.coin ∧ 5 ≤ e.mentions) ∧
    (∀ (results : List ProcessedResult) (e : CoinAgg),
        e ∈ aggregatedAssets results → e.mentions < 5 →
        ∀ sig : TradingSignal, sig ∈ tradingSignals results → sig.coin ≠ e.coin) := by
  constructor
  · intro results sig hsig
    obtain ⟨e, hmem, hcoin, hge⟩ := mem_tradingSignals results sig hsig
    refine ⟨e, ⟨hmem, hcoin, hge⟩, ?_⟩
    rintro e' ⟨h'mem, h'coin, _⟩
    exact aggregated_coin_inj results h'mem hmem (h'coin.trans hcoin.symm)
  · intro results e hmem hlt sig hsig hcoin
    obtain ⟨e', h'mem, h'coin, h'ge⟩ := mem_tradingSignals results sig hsig
    have heq : e' = e := aggregated_coin_inj results h'mem hmem (h'coin.trans hcoin)
    rw [heq] at h'ge
    exact absurd h'ge (not_le.mpr hlt)

/-- Witness for C5: the five-tweet "btc" run has exactly one matching entry
for its signal, and in the run with three extra "eth" tweets the "eth" entry
(3 mentions) yields no signal. -/
theorem claim_C5_witness :
    (∃! e : CoinAgg,
        e ∈ aggregatedAssets wResults ∧ e.coin = wSig5.coin ∧ 5 ≤ e.mentions) ∧
    wSig5b.coin ≠ wEth.coin :=
  ⟨claim_C5_min_mentions_invariant.1 wResults wSig5
      (List.head_mem wResults_signals_ne_nil),
   claim_C5_min_mentions_invariant.2 wResults2 wEth
      (List.get_mem _ 1 (by decide)) (by decide) wSig5b
      (List.head_mem wResults2_signals_ne_nil)⟩

/-- C8: the batch output is sorted by absolute signal strength descending,
items that produce no signal (extraction error or absent classifier result)
are skipped without aborting the batch, and every output signal is the
non-null signal of one of the remaining items. -/
theorem claim_C8_batch_sorted_and_skips :
    (∀ (th : SignalThresholds) (items : List (Option CoinData)),
        (generate_signals_batch th items).Sorted strengthGE) ∧
    (∀ (th : SignalThresholds) (item : Option CoinData)
        (rest : List (Option CoinData)),
        (item.bind fun d =>
            generate_signal th d.coin d.sentiment d.mentions d.engagement) = none →
        generate_signals_batch th (item :: rest) = generate_signals_batch th rest) ∧
    (∀ (th : SignalThresholds) (items : List (Option CoinData))
        (sig : TradingSignal),
        sig ∈ generate_signals_batch th items →
        ∃ d : CoinData, some d ∈ items ∧
          generate_signal th d.coin d.sentiment d.mentions d.engagement = some sig) := by
  refine ⟨?_, batch_skips_none, ?_⟩
  · intro th items
    exact List.sorted_insertionSort strengthGE _
  · intro th items sig h
    simp only [generate_signals_batch] at h
    rw [List.mem_insertionSort, List.mem_filterMap] at h
    obtain ⟨item, hitem, hbind⟩ := h
    rcases item with _ | d
    · simp at hbind
    · exact ⟨d, hitem, hbind⟩

/-- Witness for C8: a skipped malformed item and the sample one-item batch. -/
theorem claim_C8_witness :
    generate_signals_batch defaultThresholds [none] =
        generate_signals_batch defaultThresholds [] ∧
      ∃ d : CoinData, some d ∈ sampleItems ∧
        generate_signal defaultThresholds d.coin d.sentiment d.mentions d.engagement =
          some sampleBatchSignal :=
  ⟨claim_C8_batch_sorted_and_skips.2.1 defaultThresholds none [] rfl,
   claim_C8_batch_sorted_and_skips.2.2 defaultThresholds sampleItems sampleBatchSignal
     (List.head_mem sample_batch_ne_nil)⟩

end AITrading
